import Mathlib

/-!
# Verification of the Move Cursor scroll utility

Shallow embedding of the core of the `move_cursor` Python program:
the platform backends (`src/backends/base.py`, `windows.py`, `linux.py`,
`darwin.py`) and the key-event controller (`src/main.py`), together with
theorems settling the specification claims.
-/

namespace MoveCursor

/-! ## String helpers

Python's `needle in haystack` substring test and `str.lower`, embedded over
`List Char`.  `String.toLower` plays the role of `str.lower`. -/

/-- Tests whether list `n` is an initial segment of `h`. -/
def charsPrefixOf : List Char → List Char → Bool
  | [], _ => true
  | _ :: _, [] => false
  | a :: as, b :: bs => a = b && charsPrefixOf as bs

/-- Tests whether list `n` occurs contiguously inside `h` (Python `n in h`
on strings). -/
def charsInfixOf (needle : List Char) : List Char → Bool
  | [] => charsPrefixOf needle []
  | b :: bs => charsPrefixOf needle (b :: bs) || charsInfixOf needle bs

/-- Python `needle in haystack` on strings: substring containment. -/
def strContainsSub (haystack needle : String) : Bool :=
  charsInfixOf needle.data haystack.data

/-- Python `str.lower`, embedded character-wise (`String.toLower` has the
same behaviour but does not reduce definitionally). -/
def strToLower (s : String) : String :=
  ⟨s.data.map Char.toLower⟩

/-! ## Backend pause/run state (`src/backends/base.py`) -/

/-- The two flags held by `BaseBackend.__init__`: `_is_running` and
`_is_paused` (`base.py` lines 18-21). -/
structure BackendState where
  is_running : Bool
  is_paused : Bool
deriving DecidableEq, Repr

/-- Embeds `BaseBackend.start` (`base.py` lines 107-110). -/
def backendStart (_b : BackendState) : BackendState :=
  { is_running := true, is_paused := false }

/-- Embeds `BaseBackend.stop` (`base.py` lines 112-115). -/
def backendStop (_b : BackendState) : BackendState :=
  { is_running := false, is_paused := false }

/-- Embeds `BaseBackend.toggle_pause` (`base.py` lines 117-125): flips `_is_paused`
and returns the new value. -/
def toggle_pause (b : BackendState) : BackendState × Bool :=
  let b' : BackendState := { b with is_paused := !b.is_paused }
  (b', b'.is_paused)

/-- Embeds `BaseBackend.set_pause` (`base.py` lines 127-134). -/
def set_pause (b : BackendState) (paused : Bool) : BackendState :=
  { b with is_paused := paused }

/-! ## Terminal catalogs -/

/-- Embeds `LinuxBackend.LINUX_TERMINAL_CLASSES` (`linux.py` lines 27-37). -/
def LINUX_TERMINAL_CLASSES : List String :=
  ["gnome-terminal", "konsole", "xterm", "urxvt", "alacritty",
   "kitty", "terminator", "guake", "xfce4-terminal"]

/-- Embeds `DarwinBackend.MACOS_TERMINAL_BUNDLES` (`darwin.py` lines 26-34). -/
def MACOS_TERMINAL_BUNDLES : List String :=
  ["com.apple.Terminal", "com.googlecode.iterm2", "com.microsoft.VSCode",
   "com.jetbrains.pycharm", "com.jetbrains.intellij", "org.alacritty",
   "net.kovidgoyal.kitty"]

/-- Modelled from the spec: `WINDOWS_TERMINAL_CLASSES` lives in
`src/config.py`, which is not among the source files (only
`WindowsBackend.get_terminal_window_classes` imports it).  The spec says only
that it is a static per-OS catalog of terminal window-class names, never
empty and duplicate-free for a supported OS; modelled here as a
representative such list of well-known Windows console window classes. -/
def WINDOWS_TERMINAL_CLASSES : List String :=
  ["ConsoleWindowClass", "CASCADIA_HOSTING_WINDOW_CLASS", "mintty",
   "PuTTY", "VirtualConsoleClass"]

/-! ## Terminal classification -/

/-- Embeds `WindowsBackend.is_terminal_window` (`windows.py` lines 82-105),
parameterised by the catalog that `get_terminal_window_classes` returns
(the concrete catalog comes from the external config): empty input is
rejected, then a case-sensitive exact membership test, then a
case-insensitive substring test (catalog entry contained in the window
class). -/
def windows_is_terminal_window (catalog : List String) (window_class : String) : Bool :=
  if window_class.data.isEmpty then false
  else if catalog.contains window_class then true
  else catalog.any (fun tc => strContainsSub (strToLower window_class) (strToLower tc))

/-- Embeds `LinuxBackend.is_terminal_window` (`linux.py` lines 71-75): empty input
rejected, then case-insensitive exact membership in the lowered catalog
(Python list membership, not substring). -/
def linux_is_terminal_window (window_class : String) : Bool :=
  if window_class.data.isEmpty then false
  else (LINUX_TERMINAL_CLASSES.map strToLower).contains (strToLower window_class)

/-- Embeds `DarwinBackend.is_terminal_window` (`darwin.py` lines 63-67): same shape
as the Linux variant, over the macOS bundle catalog. -/
def darwin_is_terminal_window (bundle_id : String) : Bool :=
  if bundle_id.data.isEmpty then false
  else (MACOS_TERMINAL_BUNDLES.map strToLower).contains (strToLower bundle_id)

/-- The classification rule as the spec words it: some catalog entry matches
the identity case-insensitively exactly, or is contained in it
case-insensitively. -/
def specIsTerminal (catalog : List String) (s : String) : Prop :=
  ∃ e ∈ catalog,
    strToLower e = strToLower s ∨ strContainsSub (strToLower s) (strToLower e) = true

instance (catalog : List String) (s : String) : Decidable (specIsTerminal catalog s) := by
  unfold specIsTerminal
  infer_instance

/-! ## Windows scroll injection (`windows.py`) -/

/-- Win32 scroll-bar command constants used by `WindowsBackend`. -/
def SB_LINEUP : Nat := 0
def SB_LINEDOWN : Nat := 1
def SB_PAGEUP : Nat := 2
def SB_PAGEDOWN : Nat := 3
def SB_LINELEFT : Nat := 0
def SB_LINERIGHT : Nat := 1
def SB_PAGELEFT : Nat := 2
def SB_PAGERIGHT : Nat := 3

/-- Embeds `WindowsBackend.SCROLL_COMMANDS` (`windows.py` lines 33-38). -/
def SCROLL_COMMANDS : List (String × Nat) :=
  [("up", SB_PAGEUP), ("down", SB_PAGEDOWN),
   ("line_up", SB_LINEUP), ("line_down", SB_LINEDOWN)]

/-- Embeds `WindowsBackend.HSCROLL_COMMANDS` (`windows.py` lines 41-46). -/
def HSCROLL_COMMANDS : List (String × Nat) :=
  [("left", SB_LINELEFT), ("right", SB_LINERIGHT),
   ("page_left", SB_PAGELEFT), ("page_right", SB_PAGERIGHT)]

/-- The Win32 environment a scroll call runs against: what `IsWindow`
answers for each handle, and whether the guarded Win32 calls
(`IsWindow`/`PostMessage`) raise — a raise is caught by the
`try`/`except` and turned into `false`. -/
structure Win32Env where
  is_window : Nat → Bool
  raises : Bool

/-- Python truthiness of `dict.get`'s result: `None` and `0` are falsy
(`if not command`). -/
def commandTruthy : Option Nat → Bool
  | none => false
  | some n => n ≠ 0

/-- Embeds `WindowsBackend.scroll_vertical` (`windows.py` lines 107-139):
zero handle rejected, falsy command rejected, then inside `try`:
`IsWindow` check, `PostMessage`; any exception is caught and yields
`false`. -/
def windows_scroll_vertical (env : Win32Env) (hwnd : Nat) (direction : String) : Bool :=
  if hwnd = 0 then false
  else if !commandTruthy (SCROLL_COMMANDS.lookup direction) then false
  else if env.raises then false
  else if !env.is_window hwnd then false
  else true

/-- Embeds `WindowsBackend.scroll_horizontal` (`windows.py` lines 141-172):
same shape over `HSCROLL_COMMANDS`. -/
def windows_scroll_horizontal (env : Win32Env) (hwnd : Nat) (direction : String) : Bool :=
  if hwnd = 0 then false
  else if !commandTruthy (HSCROLL_COMMANDS.lookup direction) then false
  else if env.raises then false
  else if !env.is_window hwnd then false
  else true

/-- Embeds `LinuxBackend.scroll_vertical` (`linux.py` lines 77-84): unimplemented,
always `false`. -/
def linux_scroll_vertical (_hwnd : Nat) (_direction : String) : Bool := false

/-- Embeds `LinuxBackend.scroll_horizontal` (`linux.py` lines 86-93). -/
def linux_scroll_horizontal (_hwnd : Nat) (_direction : String) : Bool := false

/-- Embeds `DarwinBackend.scroll_vertical` (`darwin.py` lines 69-76). -/
def darwin_scroll_vertical (_hwnd : Nat) (_direction : String) : Bool := false

/-- Embeds `DarwinBackend.scroll_horizontal` (`darwin.py` lines 78-85). -/
def darwin_scroll_horizontal (_hwnd : Nat) (_direction : String) : Bool := false

/-! ## Key model and controller (`src/main.py`) -/

/-- The pynput key objects the program ever compares against: the values of
`ScrollController.KEY_MAP` plus the Shift modifier tracked by the
handlers. -/
inductive PKey where
  | page_up
  | page_down
  | up
  | down
  | f12
  | scroll_lock
  | pause
  | esc
  | shift
deriving DecidableEq, Repr

/-- Embeds `ScrollController.KEY_MAP` (`main.py` lines 56-65): config name →
pynput key. -/
def KEY_MAP : List (String × PKey) :=
  [("page_up", .page_up), ("page_down", .page_down), ("up", .up),
   ("down", .down), ("f12", .f12), ("scroll_lock", .scroll_lock),
   ("pause", .pause), ("esc", .esc)]

/-- Embeds `ScrollController._get_key_from_config` (`main.py` lines 84-96):
`'none'`, the empty string and an absent value resolve to no binding;
otherwise the lowered name is looked up in `KEY_MAP` (a miss is also no
binding). -/
def get_key_from_config (key_name : Option String) : Option PKey :=
  match key_name with
  | none => none
  | some s =>
    if s = "none" ∨ s.data.isEmpty then none else KEY_MAP.lookup (strToLower s)

/-- The backend as the controller sees it during one event: its flag pair
plus the answers the platform queries would give.  `has_handle_attr` models
`hasattr(self._backend, 'get_active_window_handle')` (`main.py` line 139):
absent on the Linux backend, in which case the handle defaults to `0`. -/
structure BackendModel where
  st : BackendState
  active_window_class : Option String
  is_terminal : String → Bool
  has_handle_attr : Bool
  active_window_handle : Nat
  scroll_v_result : Bool
  scroll_h_result : Bool

/-- The observable effects of one handler invocation: a pause toggle
(carrying the new pause value), a controller stop, or a scroll call with
its target handle and direction argument. -/
inductive Effect where
  | pauseToggled (newState : Bool)
  | stopped
  | vscroll (hwnd : Nat) (direction : String)
  | hscroll (hwnd : Nat) (direction : String)
deriving DecidableEq, Repr

/-- Embeds `ScrollController._handle_scroll` (`main.py` lines 119-151), returning
the scroll calls issued.  Gates in source order: backend pause flag, falsy
(absent or empty) window class, terminal classification; then Shift plus
the horizontal-scroll config flag choose the axis, mapping `'up'` to
`'left'` and anything else to `'right'`. -/
def handle_scroll (horizontal_scroll_enabled : Bool) (b : BackendModel)
    (shift_pressed : Bool) (direction : String) : List Effect :=
  if b.st.is_paused then []
  else
    match b.active_window_class with
    | none => []
    | some window_class =>
      if window_class.data.isEmpty then []
      else if !b.is_terminal window_class then []
      else
        let hwnd := if b.has_handle_attr then b.active_window_handle else 0
        if shift_pressed && horizontal_scroll_enabled then
          let h_direction := if direction = "up" then "left" else "right"
          [Effect.hscroll hwnd h_direction]
        else
          [Effect.vscroll hwnd direction]

/-- Embeds `ScrollController` state: controller `_is_running` and
`_shift_pressed` flags, the owned backend, whether the keyboard listener
is installed and live, and the three resolved bindings
(`main.py` lines 67-82). -/
structure ControllerState where
  backend : BackendModel
  is_running : Bool
  shift_pressed : Bool
  listener_active : Bool
  pause_key : Option PKey
  scroll_up_key : Option PKey
  scroll_down_key : Option PKey

/-- Embeds `ScrollController._is_scroll_key` (`main.py` lines 115-117). -/
def is_scroll_key (s : ControllerState) (key : PKey) : Bool :=
  s.scroll_up_key = some key || s.scroll_down_key = some key

/-- Embeds `ScrollController.stop` (`main.py` lines 245-257): a no-op unless
`_is_running`; otherwise clears the flag, stops the backend and stops the
listener. -/
def controller_stop (s : ControllerState) : ControllerState :=
  if !s.is_running then s
  else { s with is_running := false,
                backend := { s.backend with st := backendStop s.backend.st },
                listener_active := false }

/-- Embeds `ScrollController.on_press` (`main.py` lines 160-194): Shift tracking,
then the configured pause key, then the fixed ESC quit key, then the
scroll keys — in that source order.  Returns the new state and the
effects of the event. -/
def on_press (horizontal_scroll_enabled : Bool) (s : ControllerState)
    (key : PKey) : ControllerState × List Effect :=
  if key = PKey.shift then
    ({ s with shift_pressed := true }, [])
  else if s.pause_key = some key then
    let r := toggle_pause s.backend.st
    ({ s with backend := { s.backend with st := r.1 } }, [Effect.pauseToggled r.2])
  else if key = PKey.esc then
    (controller_stop s, [Effect.stopped])
  else if is_scroll_key s key then
    if s.scroll_up_key = some key then
      (s, handle_scroll horizontal_scroll_enabled s.backend s.shift_pressed "up")
    else if s.scroll_down_key = some key then
      (s, handle_scroll horizontal_scroll_enabled s.backend s.shift_pressed "down")
    else (s, [])
  else (s, [])

/-- Embeds `ScrollController.on_release` (`main.py` lines 196-208): only Shift
release is observed. -/
def on_release (s : ControllerState) (key : PKey) : ControllerState :=
  if key = PKey.shift then { s with shift_pressed := false } else s

/-- Count of `scroll_vertical` calls in an effect list. -/
def countVScroll (es : List Effect) : Nat :=
  es.countP fun e => match e with | .vscroll _ _ => true | _ => false

/-- Count of `scroll_horizontal` calls in an effect list. -/
def countHScroll (es : List Effect) : Nat :=
  es.countP fun e => match e with | .hscroll _ _ => true | _ => false

/-- Count of pause toggles in an effect list. -/
def countPauseToggled (es : List Effect) : Nat :=
  es.countP fun e => match e with | .pauseToggled _ => true | _ => false

/-- Count of scroll calls originating from the scroll-up action: vertical
`'up'` or (Shift-mapped) horizontal `'left'`. -/
def countUpAction (es : List Effect) : Nat :=
  es.countP fun e => match e with
    | .vscroll _ d => d = "up"
    | .hscroll _ d => d = "left"
    | _ => false

/-- Count of scroll calls originating from the scroll-down action: vertical
`'down'` or (Shift-mapped) horizontal `'right'`. -/
def countDownAction (es : List Effect) : Nat :=
  es.countP fun e => match e with
    | .vscroll _ d => d = "down"
    | .hscroll _ d => d = "right"
    | _ => false

/-! ## Sample states used by the witnesses -/

/-- A backend answering like a freshly started Linux-style backend with an
xterm focused. -/
def sampleBackend : BackendModel :=
  { st := { is_running := true, is_paused := false },
    active_window_class := some "xterm",
    is_terminal := fun w => linux_is_terminal_window w,
    has_handle_attr := false,
    active_window_handle := 0,
    scroll_v_result := true,
    scroll_h_result := true }

/-- A running controller with the default-looking bindings. -/
def sampleRunning : ControllerState :=
  { backend := sampleBackend,
    is_running := true,
    shift_pressed := false,
    listener_active := true,
    pause_key := some PKey.pause,
    scroll_up_key := some PKey.page_up,
    scroll_down_key := some PKey.page_down }

/-- The sample controller with its backend paused. -/
def samplePaused : ControllerState :=
  { sampleRunning with
    backend := { sampleBackend with st := { is_running := true, is_paused := true } } }

/-! ## Helper lemmas -/

theorem charsPrefixOf_self (as : List Char) : charsPrefixOf as as = true := by
  induction as with
  | nil => rfl
  | cons a as ih => simp [charsPrefixOf, ih]

theorem strContainsSub_self (x : String) : strContainsSub x x = true := by
  unfold strContainsSub
  cases h : x.data with
  | nil => rfl
  | cons b bs => simp [charsInfixOf, charsPrefixOf_self]

/-! ## Claims -/

/-- C9: `toggle_pause` flips the paused flag and returns the new value, two
consecutive toggles restore the original paused state, and after
`set_pause true` the paused flag is true regardless of the prior state. -/
theorem C9_pause_toggle_algebra (b : BackendState) :
    (toggle_pause b).2 = !b.is_paused ∧
    (toggle_pause b).1.is_paused = !b.is_paused ∧
    (toggle_pause (toggle_pause b).1).1.is_paused = b.is_paused ∧
    (set_pause b true).is_paused = true := by
  simp [toggle_pause, set_pause]

/-- C10: `toggle_pause` and `set_pause` leave the running flag unchanged —
pausing and unpausing can never start or stop the backend. -/
theorem C10_pause_preserves_running (b : BackendState) (p : Bool) :
    (toggle_pause b).1.is_running = b.is_running ∧
    (set_pause b p).is_running = b.is_running := by
  simp [toggle_pause, set_pause]

/-- C8: every platform's terminal catalog is non-empty and duplicate-free
(the Windows catalog is modelled from the spec, since `config.py` is not
among the sources). -/
theorem C8_catalogs_nonempty_nodup :
    LINUX_TERMINAL_CLASSES ≠ [] ∧ LINUX_TERMINAL_CLASSES.Nodup ∧
    MACOS_TERMINAL_BUNDLES ≠ [] ∧ MACOS_TERMINAL_BUNDLES.Nodup ∧
    WINDOWS_TERMINAL_CLASSES ≠ [] ∧ WINDOWS_TERMINAL_CLASSES.Nodup := by
  decide

/-- C7: for every backend variant, the scroll calls return `false` (and, the
embedding being total, raise nothing) whenever the handle is zero, the
handle is stale/invalid (`IsWindow` answers no), the direction is not
recognized for that axis, or the underlying injection raises.  The Linux
and macOS variants return `false` unconditionally. -/
theorem C7_scroll_failure_returns_false (env : Win32Env) (hwnd : Nat) (direction : String) :
    ((hwnd = 0 ∨ SCROLL_COMMANDS.lookup direction = none ∨
      env.is_window hwnd = false ∨ env.raises = true) →
      windows_scroll_vertical env hwnd direction = false) ∧
    ((hwnd = 0 ∨ HSCROLL_COMMANDS.lookup direction = none ∨
      env.is_window hwnd = false ∨ env.raises = true) →
      windows_scroll_horizontal env hwnd direction = false) ∧
    linux_scroll_vertical hwnd direction = false ∧
    linux_scroll_horizontal hwnd direction = false ∧
    darwin_scroll_vertical hwnd direction = false ∧
    darwin_scroll_horizontal hwnd direction = false := by
  refine ⟨?_, ?_, rfl, rfl, rfl, rfl⟩
  · intro h
    unfold windows_scroll_vertical
    split_ifs with h1 h2 h3 h4 <;> try rfl
    exfalso
    rcases h with h | h | h | h
    · exact h1 h
    · simp [h, commandTruthy] at h2
    · simp [h] at h4
    · exact h3 h
  · intro h
    unfold windows_scroll_horizontal
    split_ifs with h1 h2 h3 h4 <;> try rfl
    exfalso
    rcases h with h | h | h | h
    · exact h1 h
    · simp [h, commandTruthy] at h2
    · simp [h] at h4
    · exact h3 h

theorem C7_scroll_failure_returns_false_witness :
    windows_scroll_vertical { is_window := fun _ => true, raises := false } 0 "up" = false ∧
    windows_scroll_horizontal { is_window := fun _ => true, raises := false } 0 "left" = false ∧
    linux_scroll_vertical 0 "up" = false := by
  have h := C7_scroll_failure_returns_false
    { is_window := fun _ => true, raises := false } 0 "up"
  have h2 := C7_scroll_failure_returns_false
    { is_window := fun _ => true, raises := false } 0 "left"
  exact ⟨h.1 (Or.inl rfl), h2.2.1 (Or.inl rfl), h.2.2.1⟩

/-- C3: while the backend is paused, a key-down event matching a configured
scroll key produces zero `scroll_vertical` calls and zero
`scroll_horizontal` calls. -/
theorem C3_paused_means_no_scroll (hse : Bool) (s : ControllerState) (key : PKey)
    (hp : s.backend.st.is_paused = true) (hk : is_scroll_key s key = true) :
    countVScroll (on_press hse s key).2 = 0 ∧
    countHScroll (on_press hse s key).2 = 0 := by
  unfold on_press handle_scroll
  split_ifs <;> simp [countVScroll, countHScroll, hp]

theorem C3_paused_means_no_scroll_witness :
    is_scroll_key samplePaused PKey.page_down = true ∧
    countVScroll (on_press true samplePaused PKey.page_down).2 = 0 ∧
    countHScroll (on_press true samplePaused PKey.page_down).2 = 0 := by
  have h := C3_paused_means_no_scroll true samplePaused PKey.page_down rfl (by rfl)
  exact ⟨by rfl, h.1, h.2⟩

/-- C5: while not paused, a scroll dispatch for which the active window
class is absent (or empty, Python falsiness) or fails terminal
classification issues no scroll call of either kind and returns cleanly. -/
theorem C5_no_target_no_scroll (hse : Bool) (b : BackendModel)
    (shift : Bool) (direction : String)
    (hp : b.st.is_paused = false)
    (h : b.active_window_class = none ∨
         ∃ w, b.active_window_class = some w ∧
              (w.data.isEmpty = true ∨ b.is_terminal w = false)) :
    handle_scroll hse b shift direction = [] := by
  unfold handle_scroll
  rcases h with h | ⟨w, hw, hcase⟩
  · simp [hp, h]
  · rcases hcase with he | ht
    · simp [hp, hw, he]
    · simp [hp, hw, ht]

theorem C5_no_target_no_scroll_witness :
    handle_scroll true
      { sampleBackend with active_window_class := none } false "up" = [] ∧
    handle_scroll true
      { sampleBackend with active_window_class := some "firefox" } false "down" = [] := by
  refine ⟨?_, ?_⟩
  · exact C5_no_target_no_scroll true _ false "up" rfl (Or.inl rfl)
  · exact C5_no_target_no_scroll true _ false "down" rfl
      (Or.inr ⟨"firefox", rfl, Or.inr (by rfl)⟩)

/-- C6: on a dispatched scroll event (all gates passed), Shift together with
the horizontal-scroll flag yields exactly one `scroll_horizontal` call with
up mapped to left and down mapped to right, and no `scroll_vertical` call;
with horizontal scrolling disabled the event always yields exactly one
`scroll_vertical` call with the original direction, Shift or not. -/
theorem C6_shift_gating (hse : Bool) (b : BackendModel)
    (shift : Bool) (direction : String) (w : String)
    (hp : b.st.is_paused = false)
    (hw : b.active_window_class = some w)
    (hne : w.data.isEmpty = false)
    (ht : b.is_terminal w = true) :
    (shift = true → hse = true →
      handle_scroll hse b shift direction =
        [Effect.hscroll (if b.has_handle_attr then b.active_window_handle else 0)
          (if direction = "up" then "left" else "right")]) ∧
    (hse = false →
      handle_scroll hse b shift direction =
        [Effect.vscroll (if b.has_handle_attr then b.active_window_handle else 0)
          direction]) := by
  constructor
  · intro hs hh
    simp [handle_scroll, hp, hw, hne, ht, hs, hh]
  · intro hh
    simp [handle_scroll, hp, hw, hne, ht, hh]

theorem C6_shift_gating_witness :
    handle_scroll true sampleBackend true "down" = [Effect.hscroll 0 "right"] ∧
    handle_scroll false sampleBackend true "down" = [Effect.vscroll 0 "down"] := by
  have h1 := C6_shift_gating true sampleBackend true "down" "xterm"
    rfl rfl (by rfl) (by rfl)
  have h2 := C6_shift_gating false sampleBackend true "down" "xterm"
    rfl rfl (by rfl) (by rfl)
  exact ⟨h1.1 rfl rfl, h2.2 rfl⟩

/-- Helper: `handle_scroll` never toggles pause, and the direction argument fixes
which action's calls can appear: a `'down'` dispatch yields no up-action
call and an `'up'` dispatch yields no down-action call. -/
theorem handle_scroll_counts (hse : Bool) (b : BackendModel) (sp : Bool) (d : String) :
    countPauseToggled (handle_scroll hse b sp d) = 0 ∧
    (d = "down" → countUpAction (handle_scroll hse b sp d) = 0) ∧
    (d = "up" → countDownAction (handle_scroll hse b sp d) = 0) := by
  rcases h : b.active_window_class with _ | wc <;>
    simp only [handle_scroll, h] <;>
    split_ifs <;>
    simp_all [countPauseToggled, countUpAction, countDownAction]

/-- C4: `'none'`, the empty string, an absent value, and any name missing
from `KEY_MAP` all resolve to no binding; and an action whose binding is
`none` is never triggered by any key-down event: an unbound pause key never
produces a pause toggle, an unbound scroll-up key never produces an
up-action scroll call (vertical `'up'` or horizontal `'left'`), and an
unbound scroll-down key never produces a down-action scroll call (vertical
`'down'` or horizontal `'right'`). -/
theorem C4_no_binding_unreachable :
    get_key_from_config none = none ∧
    get_key_from_config (some "none") = none ∧
    get_key_from_config (some "") = none ∧
    (∀ s : String, KEY_MAP.lookup (strToLower s) = none →
      get_key_from_config (some s) = none) ∧
    (∀ (hse : Bool) (st : ControllerState) (key : PKey),
      st.pause_key = none → countPauseToggled (on_press hse st key).2 = 0) ∧
    (∀ (hse : Bool) (st : ControllerState) (key : PKey),
      st.scroll_up_key = none → countUpAction (on_press hse st key).2 = 0) ∧
    (∀ (hse : Bool) (st : ControllerState) (key : PKey),
      st.scroll_down_key = none → countDownAction (on_press hse st key).2 = 0) := by
  refine ⟨rfl, rfl, rfl, ?_, ?_, ?_, ?_⟩
  · intro s h
    simp only [get_key_from_config]
    split_ifs with h1
    · rfl
    · exact h
  · intro hse st key hp
    unfold on_press
    split_ifs with h1 h2 h3 h4 h5 h6
    · rfl
    · rw [hp] at h2; exact Option.noConfusion h2
    · rfl
    · exact (handle_scroll_counts hse st.backend st.shift_pressed "up").1
    · exact (handle_scroll_counts hse st.backend st.shift_pressed "down").1
    · rfl
    · rfl
  · intro hse st key hup
    unfold on_press
    split_ifs with h1 h2 h3 h4 h5 h6
    · rfl
    · rfl
    · rfl
    · rw [hup] at h5; exact Option.noConfusion h5
    · exact (handle_scroll_counts hse st.backend st.shift_pressed "down").2.1 rfl
    · rfl
    · rfl
  · intro hse st key hdown
    unfold on_press
    split_ifs with h1 h2 h3 h4 h5 h6
    · rfl
    · rfl
    · rfl
    · exact (handle_scroll_counts hse st.backend st.shift_pressed "up").2.2 rfl
    · rw [hdown] at h6; exact Option.noConfusion h6
    · rfl
    · rfl

theorem C4_no_binding_unreachable_witness :
    get_key_from_config (some "numpad5") = none ∧
    countPauseToggled
      (on_press true { sampleRunning with pause_key := none } PKey.pause).2 = 0 := by
  refine ⟨?_, ?_⟩
  · exact C4_no_binding_unreachable.2.2.2.1 "numpad5" rfl
  · exact C4_no_binding_unreachable.2.2.2.2.1 true
      { sampleRunning with pause_key := none } PKey.pause rfl

/-- The sample controller with ESC bound as the pause key (a configuration
the key-name table admits: `'esc'` is a `KEY_MAP` entry). -/
def escBoundState : ControllerState :=
  { sampleRunning with pause_key := some PKey.esc }

/-- C2 as stated is false: the pause-key comparison precedes the ESC check
in `on_press`, and `'esc'` is a legal pause-key binding, so with the pause
key bound to ESC a key-down ESC toggles pause and leaves the controller
running instead of stopping it. -/
theorem C2_counterexample :
    get_key_from_config (some "esc") = some PKey.esc ∧
    escBoundState.is_running = true ∧
    escBoundState.backend.st.is_paused = false ∧
    (on_press false escBoundState PKey.esc).1.is_running = true ∧
    (on_press false escBoundState PKey.esc).2 = [Effect.pauseToggled true] := by
  exact ⟨rfl, rfl, rfl, rfl, rfl⟩

/-- C2 amended: whenever the configured pause key is not ESC, a key-down
ESC event in a running (paused or not) controller stops it — the running
flag is cleared, the backend is stopped (running and paused both cleared),
and the listener is stopped — regardless of `shiftPressed` and of the
scroll bindings. -/
theorem C2_esc_stops (hse : Bool) (s : ControllerState)
    (hrun : s.is_running = true) (hpk : s.pause_key ≠ some PKey.esc) :
    (on_press hse s PKey.esc).1.is_running = false ∧
    (on_press hse s PKey.esc).1.backend.st.is_running = false ∧
    (on_press hse s PKey.esc).1.backend.st.is_paused = false ∧
    (on_press hse s PKey.esc).1.listener_active = false ∧
    (on_press hse s PKey.esc).2 = [Effect.stopped] := by
  simp [on_press, controller_stop, backendStop, hrun, hpk]

theorem C2_esc_stops_witness :
    (on_press false sampleRunning PKey.esc).1.is_running = false ∧
    (on_press false sampleRunning PKey.esc).1.backend.st.is_running = false ∧
    (on_press false sampleRunning PKey.esc).1.backend.st.is_paused = false ∧
    (on_press false sampleRunning PKey.esc).1.listener_active = false ∧
    (on_press false sampleRunning PKey.esc).2 = [Effect.stopped] := by
  exact C2_esc_stops false sampleRunning rfl (by decide)

/-- C1 as stated is false: the substring half of the classification rule
exists only in the Windows backend.  The Linux backend tests
case-insensitive exact membership, so even though `"konsole"` is in its
catalog, `"org.kde.konsole-12345"` is not classified as a terminal there
(and the claim quantifies over every backend variant). -/
theorem C1_counterexample :
    "konsole" ∈ LINUX_TERMINAL_CLASSES ∧
    specIsTerminal LINUX_TERMINAL_CLASSES "org.kde.konsole-12345" ∧
    linux_is_terminal_window "org.kde.konsole-12345" = false := by
  refine ⟨by decide, ?_, by decide⟩
  exact ⟨"konsole", by decide, Or.inr (by decide)⟩

/-- C1 amended: for every catalog and non-empty identity, the Windows
variant classifies exactly as the spec's rule (case-insensitive exact match
or case-insensitive containment of a catalog entry); the Linux and macOS
variants classify by case-insensitive exact match against their catalogs
only, with no substring fallback. -/
theorem C1_classification (catalog : List String) (s : String)
    (hne : s.data.isEmpty = false) :
    (windows_is_terminal_window catalog s = true ↔ specIsTerminal catalog s) ∧
    (linux_is_terminal_window s = true ↔
      ∃ e ∈ LINUX_TERMINAL_CLASSES, strToLower e = strToLower s) ∧
    (darwin_is_terminal_window s = true ↔
      ∃ e ∈ MACOS_TERMINAL_BUNDLES, strToLower e = strToLower s) := by
  refine ⟨?_, ?_, ?_⟩
  · unfold windows_is_terminal_window specIsTerminal
    rw [if_neg (by simp [hne])]
    constructor
    · intro h
      by_cases hc : catalog.contains s = true
      · exact ⟨s, List.elem_iff.mp hc, Or.inl rfl⟩
      · rw [if_neg (by simp at hc ⊢; exact hc)] at h
        obtain ⟨e, he, hsub⟩ := List.any_eq_true.mp h
        exact ⟨e, he, Or.inr hsub⟩
    · rintro ⟨e, he, hmatch | hsub⟩
      · by_cases hc : catalog.contains s = true
        · rw [if_pos hc]
        · rw [if_neg (by simp at hc ⊢; exact hc)]
          exact List.any_eq_true.mpr ⟨e, he, by rw [hmatch]; exact strContainsSub_self _⟩
      · by_cases hc : catalog.contains s = true
        · rw [if_pos hc]
        · rw [if_neg (by simp at hc ⊢; exact hc)]
          exact List.any_eq_true.mpr ⟨e, he, hsub⟩
  · unfold linux_is_terminal_window
    rw [if_neg (by simp [hne])]
    rw [List.elem_iff, List.mem_map]
  · unfold darwin_is_terminal_window
    rw [if_neg (by simp [hne])]
    rw [List.elem_iff, List.mem_map]

theorem C1_classification_witness :
    (windows_is_terminal_window LINUX_TERMINAL_CLASSES "org.kde.konsole-12345" = true ↔
      specIsTerminal LINUX_TERMINAL_CLASSES "org.kde.konsole-12345") ∧
    (linux_is_terminal_window "org.kde.konsole-12345" = true ↔
      ∃ e ∈ LINUX_TERMINAL_CLASSES, strToLower e = strToLower "org.kde.konsole-12345") ∧
    (darwin_is_terminal_window "org.kde.konsole-12345" = true ↔
      ∃ e ∈ MACOS_TERMINAL_BUNDLES, strToLower e = strToLower "org.kde.konsole-12345") :=
  C1_classification LINUX_TERMINAL_CLASSES "org.kde.konsole-12345" (by decide)

end MoveCursor
